import Mathlib

/-!
Shallow embedding of the live signal-tracking engine of
thUser005/project_stocks_profits, centred on `run_live_trade_worker`
(src/worker.py), the quote client (src/groww_async.py), the cold-start
routine (src/worker.py `run_cold_start_from_api`), and the session-clock
helpers (src/time_utils.py, src/stock_profits.py).

Prices are modelled as rationals.  Python's `round(x, 2)` is modelled as
rounding to the nearest hundredth (Python uses bankers rounding at exact
half-cent ties; no statement below exercises such a tie).  Times of day
are minutes since midnight IST for the worker (its `dtime` constants are
minute-valued) and seconds since midnight IST for the session-clock
helpers.
-/

namespace StockProfits

/-- Config constants of worker.py (lines 22-40), times as minutes since
midnight IST: SLEEP_INTERVAL = 1 s, ERROR_SLEEP = 15 s, RESET_TIME 9:15,
LIVE_BUY window 9:25-11:40, and the hard-coded `dtime(10, 0)` gate. -/
def SLEEP_INTERVAL : ℕ := 1

def ERROR_SLEEP : ℕ := 15

def ROWS_PER_IMAGE : ℕ := 100

def RESET_TIME : ℕ := 9 * 60 + 15

def LIVE_BUY_START : ℕ := 9 * 60 + 25

def LIVE_BUY_END : ℕ := 11 * 60 + 40

def TEN_AM : ℕ := 10 * 60

/-- Python `round(q, 2)`: nearest hundredth (see header note on ties). -/
def round2 (q : ℚ) : ℚ := (⌊q * 100 + 1 / 2⌋ : ℤ) / 100

/-- One entry of the `live_trades` dict (worker.py line 371): the target
and stoploss levels recorded at entry time. -/
structure LiveTrade where
  target : ℚ
  sl : ℚ
deriving DecidableEq

/-- Per-symbol slice of the worker's global mutable state (worker.py
lines 70-72): `day_highs.get(sym)`, `sym in live_alerted`, and
`live_trades.get(sym)`. -/
structure SymState where
  dayHigh : Option ℚ
  alerted : Bool
  trade : Option LiveTrade
deriving DecidableEq

/-- State of a symbol never seen by the loop: absent from all three dicts. -/
def initSymState : SymState := ⟨none, false, none⟩

/-- Observed phase of a symbol, in the spec's vocabulary: a live trade on
the books is ENTERED; alerted with no live trade is EXITED; otherwise
PENDING. -/
inductive Phase
  | PENDING
  | ENTERED
  | EXITED
deriving DecidableEq

def rank : Phase → ℕ
  | .PENDING => 0
  | .ENTERED => 1
  | .EXITED => 2

def phase (s : SymState) : Phase :=
  match s.trade with
  | some _ => .ENTERED
  | none => if s.alerted then .EXITED else .PENDING

/-- Outcome of the GTT placement POST in trigger_gtt_trade (worker.py
lines 121-149): the backend accepted, the backend answered with a
failure, or the request itself raised. -/
inductive PlacementOutcome
  | success (gttId : String)
  | failed (err : String)
  | error (msg : String)
deriving DecidableEq

/-- External responses consumed inside the BUY branch (worker.py lines
390-415): the resolved ISIN (`some` covers both a cache hit and a
successful company-info fetch, `none` an invalid response or a raised
fetch), and the GTT backend's answer. -/
structure OrderEnv where
  isin : Option String
  placement : PlacementOutcome
deriving DecidableEq

/-- Telegram messages and order-placement calls the loop body can emit,
in program order. `gttInvoke` marks one call of trigger_gtt_trade. -/
inductive Event
  | entryMsg (entry target sl : ℚ) (qty : ℕ)
  | isinWarn
  | gttInvoke (isin : String) (qty : ℕ)
  | gttPlacedMsg (gttId : String)
  | gttFailedMsg (err : String)
  | gttErrorMsg (msg : String)
  | targetHitMsg (ltp : ℚ)
  | slHitMsg (ltp : ℚ)
deriving DecidableEq

def isEntryMsg : Event → Bool
  | .entryMsg _ _ _ _ => true
  | _ => false

def isGttInvoke : Event → Bool
  | .gttInvoke _ _ => true
  | _ => false

/-- trigger_gtt_trade (worker.py lines 112-149): one POST to the GTT
backend, a success or failure message, no retry; the returned gtt id is
discarded by the caller. -/
def trigger_gtt_trade (isin : String) (qty : ℕ) (outcome : PlacementOutcome) :
    Option String × List Event :=
  match outcome with
  | .success g => (some g, [.gttInvoke isin qty, .gttPlacedMsg g])
  | .failed e => (none, [.gttInvoke isin qty, .gttFailedMsg e])
  | .error m => (none, [.gttInvoke isin qty, .gttErrorMsg m])

/-- Entry level of worker.py line 367: round(day_high * 1.03, 2). -/
def entryOf (dh : ℚ) : ℚ := round2 (dh * (103 / 100))

/-- Target level of worker.py line 368: round(entry * 1.03, 2). -/
def targetOf (dh : ℚ) : ℚ := round2 (entryOf dh * (103 / 100))

/-- Stoploss level of worker.py line 369: round(entry * 0.99, 2). -/
def slOf (dh : ℚ) : ℚ := round2 (entryOf dh * (99 / 100))

/-- The ISIN resolution plus GTT placement block of the BUY branch
(worker.py lines 390-415): with a resolved ISIN, one trigger_gtt_trade
call and its messages; otherwise the ISIN-not-found warning. -/
def gttBlock (env : OrderEnv) (qty : ℕ) : List Event :=
  match env.isin with
  | some i => (trigger_gtt_trade i qty env.placement).2
  | none => [Event.isinWarn]

/-- BUY trigger branch (worker.py lines 360-415).  Fires when the time of
day is inside the LIVE_BUY window, the symbol is not yet alerted, a day
high was recorded, and ltp is at most 1.03 times that day high; it then
records the live trade, marks the symbol alerted, sends the BUY message,
and resolves the ISIN and places the GTT order (or warns).  The signal's
own entry/target/stoploss fields are never consulted. -/
def buyBranch (now qty : ℕ) (env : OrderEnv) (s : SymState) (ltp : ℚ) :
    SymState × List Event :=
  match s.dayHigh with
  | some dh =>
    if LIVE_BUY_START ≤ now ∧ now ≤ LIVE_BUY_END ∧ s.alerted = false ∧
        ltp ≤ dh * (103 / 100) then
      ({ s with trade := some ⟨targetOf dh, slOf dh⟩, alerted := true },
       Event.entryMsg (entryOf dh) (targetOf dh) (slOf dh) qty :: gttBlock env qty)
    else (s, [])
  | none => (s, [])

/-- Target / SL check (worker.py lines 417-427): target first, stoploss
only in the elif; either hit deletes the live trade. -/
def exitBranch (s : SymState) (ltp : ℚ) : SymState × List Event :=
  match s.trade with
  | some tr =>
    if tr.target ≤ ltp then ({ s with trade := none }, [.targetHitMsg ltp])
    else if ltp ≤ tr.sl then ({ s with trade := none }, [.slHitMsg ltp])
    else (s, [])
  | none => (s, [])

/-- Loop body for one symbol after the candle guard (worker.py lines
352-427): ltp = candle[4], high = max(candle[:4]); before 10:00 only the
day high accumulates; from 10:00 the BUY trigger runs and then the
target / SL check on whatever live trade is now on the books. -/
def bodyStep (now qty : ℕ) (env : OrderEnv) (s : SymState)
    (c0 c1 c2 c3 ltp : ℚ) : SymState × List Event :=
  let high := max (max c0 c1) (max c2 c3)
  if now < TEN_AM then
    ({ s with dayHigh := some (max ((s.dayHigh).getD 0) high) }, [])
  else
    let r1 := buyBranch now qty env s ltp
    let r2 := exitBranch r1.1 ltp
    (r2.1, r1.2 ++ r2.2)

/-- Python values a gather slot can hold in the worker's loop
(worker.py line 346-348): None, a list, the 2-tuple returned by
fetch_latest_candle, or an exception object (return_exceptions=True). -/
inductive PyVal
  | pyNone
  | pyList (xs : List ℚ)
  | pyPair (sym : String) (latest : Option (List ℚ))
  | pyExc (msg : String)
deriving DecidableEq

/-- Python truthiness of such a value: None is falsy, a list is truthy
iff non-empty, tuples of length 2 and exception objects are truthy. -/
def truthy : PyVal → Bool
  | .pyNone => false
  | .pyList xs => !xs.isEmpty
  | .pyPair _ _ => true
  | .pyExc _ => true

def isPyList : PyVal → Bool
  | .pyList _ => true
  | _ => false

def pyLen : PyVal → ℕ
  | .pyList xs => xs.length
  | .pyPair _ _ => 2
  | _ => 0

/-- The guard `not candle or not isinstance(candle, list) or
len(candle) < 5` (worker.py line 349); true means `continue`. -/
def candleGuard (v : PyVal) : Bool :=
  !truthy v || !isPyList v || pyLen v < 5

/-- One per-symbol iteration of the polling loop (worker.py lines
348-427): skip when the guard fires, otherwise run the body on the first
five candle fields. -/
def symStep (now qty : ℕ) (env : OrderEnv) (s : SymState) (v : PyVal) :
    SymState × List Event :=
  if candleGuard v then (s, [])
  else
    match v with
    | .pyList (c0 :: c1 :: c2 :: c3 :: c4 :: _) => bodyStep now qty env s c0 c1 c2 c3 c4
    | _ => (s, [])

/-- Outcome of the HTTP fetch inside _fetch_candles (groww_async.py lines
38-74): a candle list from the response (possibly empty) or a raised
exception, which the function catches. -/
inductive FetchOutcome
  | ok (candles : List (List ℚ))
  | exn (msg : String)
deriving DecidableEq

/-- _fetch_candles: returns the response's candle list, or [] when the
request raised (the except branch, groww_async.py lines 72-74). -/
def fetchCandles (o : FetchOutcome) : List (List ℚ) :=
  match o with
  | .ok cs => cs
  | .exn _ => []

/-- fetch_latest_candle (groww_async.py lines 125-142): always the
2-tuple (symbol, last candle or None); it cannot raise, because
_fetch_candles swallows every exception. -/
def fetch_latest_candle (sym : String) (o : FetchOutcome) :
    String × Option (List ℚ) :=
  (sym, (fetchCandles o).getLast?)

/-- The value a gather slot actually holds for one symbol, as a Python
value: the 2-tuple from fetch_latest_candle. -/
def fetchLatestVal (sym : String) (o : FetchOutcome) : PyVal :=
  .pyPair sym (fetchCandles o).getLast?

/-- The batched fetch of the worker (worker.py lines 344-348):
asyncio.gather over fetch_latest_candle yields one slot per requested
symbol, in request order. -/
def fetchAll (symbols : List String) (outcomes : String → FetchOutcome) :
    List (String × Option (List ℚ)) :=
  symbols.map (fun s => fetch_latest_candle s (outcomes s))

/-- Worker-level global state (worker.py lines 55-72): the vestigial
last_reset_date (assigned None at line 55 and never read or written
again) and the per-symbol dicts, with absent keys mapped to
initSymState. -/
structure WorkerGlobals where
  last_reset_date : Option ℕ
  syms : String → SymState

/-- The for-loop over zip(symbols, candles) of one polling cycle
(worker.py lines 348-427), applied to a list of (symbol, slot value)
pairs. -/
def processUpdates (now : ℕ) (qty : String → ℕ) (env : String → OrderEnv)
    (g : WorkerGlobals) : List (String × PyVal) → WorkerGlobals × List Event
  | [] => (g, [])
  | (sym, v) :: rest =>
    let r := symStep now (qty sym) (env sym) (g.syms sym) v
    let g1 : WorkerGlobals := { g with syms := Function.update g.syms sym r.1 }
    let rr := processUpdates now qty env g1 rest
    (rr.1, r.2 ++ rr.2)

/-- The slot list one cycle actually iterates over: each requested symbol
paired with the 2-tuple fetch_latest_candle produced for it. -/
def liveCycleUpdates (symbols : List String) (outcomes : String → FetchOutcome) :
    List (String × PyVal) :=
  symbols.map (fun s => (s, fetchLatestVal s (outcomes s)))

/-- Several polling cycles in sequence, each with its own time of day and
slot list.  The loop never reads the calendar date (worker.py consults
only now.time()), so cycles from different days look alike to it. -/
def runCycles (qty : String → ℕ) (env : String → OrderEnv)
    (g : WorkerGlobals) : List (ℕ × List (String × PyVal)) → WorkerGlobals
  | [] => g
  | (now, ups) :: rest => runCycles qty env (processUpdates now qty env g ups).1 rest

/-- Feed a sequence of plain prices through the loop body as well-formed
five-field candles at a fixed time of day, as in the spec's scenario. -/
def runPrices (now qty : ℕ) (env : OrderEnv) (s : SymState) :
    List ℚ → SymState × List Event
  | [] => (s, [])
  | p :: ps =>
    let r := symStep now qty env s (.pyList [p, p, p, p, p])
    let rr := runPrices now qty env r.1 ps
    (rr.1, r.2 ++ rr.2)

/-- The merged analyzed payload consumed by the cold-start routine
(worker.py lines 294-316): bucket sizes of the externally pre-analyzed
day, plus whether the meta payload was truthy. -/
structure AnalyzedData where
  profitCount : ℕ
  stoplossCount : ℕ
  enteredCount : ℕ
  notEnteredCount : ℕ
  metaPresent : Bool
deriving DecidableEq

/-- Telegram messages the cold-start routine can send. -/
inductive ColdMsg
  | marketClosedNotice
  | metaSummary
  | summaryPie (target sl entered notEntered : ℕ)
  | tableImage (title : String) (page : ℕ)
deriving DecidableEq

/-- send_table_images (worker.py lines 199-270): nothing for an empty
bucket, else one image message per page of ROWS_PER_IMAGE rows. -/
def send_table_images (title : String) (count : ℕ) : List ColdMsg :=
  if count = 0 then []
  else (List.range ((count + ROWS_PER_IMAGE - 1) / ROWS_PER_IMAGE)).map (.tableImage title)

/-- run_cold_start_from_api (worker.py lines 294-316), with the merged
analyzed payload passed in (fetch_and_merge_analyzed is network I O).
It sends a market-closed notice when outside market time, the meta
summary when meta is truthy, always the summary pie, then the table
images, and sets cold_start_done; it never reads or writes the worker's
per-symbol trade state. -/
def run_cold_start_from_api (marketTime : Bool) (d : AnalyzedData)
    (g : WorkerGlobals) : WorkerGlobals × Bool × List ColdMsg :=
  let closed := if marketTime then [] else [ColdMsg.marketClosedNotice]
  let metaMsgs := if d.metaPresent then [ColdMsg.metaSummary] else []
  let pie := [ColdMsg.summaryPie d.profitCount d.stoplossCount d.enteredCount d.notEnteredCount]
  let tables := send_table_images "TARGET HIT" d.profitCount
    ++ send_table_images "STOPLOSS HIT" d.stoplossCount
    ++ send_table_images "ENTERED" d.enteredCount
  (g, true, closed ++ metaMsgs ++ pie ++ tables)

/-- Market hours as seconds since midnight IST: 09:15:00 and 15:30:00
(time_utils.py lines 5-6, stock_profits.py lines 50-51). -/
def MARKET_OPEN : ℕ := 9 * 3600 + 15 * 60

def MARKET_CLOSE : ℕ := 15 * 3600 + 30 * 60

/-- is_market_time (time_utils.py lines 9-14): pure wall-clock window
check on the IST time of day.  The weekday is not consulted; this is the
gate run_live_trade_worker uses (worker.py line 332). -/
def is_market_time (t : ℕ) : Bool :=
  decide (MARKET_OPEN ≤ t) && decide (t ≤ MARKET_CLOSE)

/-- is_market_open (stock_profits.py lines 45-52): weekday (Mon = 0 ..
Sun = 6) must be below 5, then the same wall-clock window.  It is used by
the yfinance snapshot scheduler, not by the worker. -/
def is_market_open (weekday t : ℕ) : Bool :=
  if 5 ≤ weekday then false
  else decide (MARKET_OPEN ≤ t) && decide (t ≤ MARKET_CLOSE)

/-- The session-open predicate as the spec words it: weekday AND
within-hours, both required. -/
def specSessionOpen (weekday t : ℕ) : Bool :=
  decide (weekday < 5) && (decide (MARKET_OPEN ≤ t) && decide (t ≤ MARKET_CLOSE))

/-- Orchestration-level actions of the live loop: a log line, a Telegram
notification, or a sleep of the given number of seconds. -/
inductive OrchAction
  | logged (msg : String)
  | notified (msg : String)
  | slept (secs : ℕ)
deriving DecidableEq

def isNotifyAction : OrchAction → Bool
  | .notified _ => true
  | _ => false

def isLogAction : OrchAction → Bool
  | .logged _ => true
  | _ => false

/-- The except branch of the live loop (worker.py lines 431-433): log the
exception and sleep ERROR_SLEEP; the while loop then continues.  No
Telegram message is sent there. -/
def onCycleException (msg : String) : List OrchAction :=
  [.logged ("LIVE_WORKER_EXCEPTION :: " ++ msg), .slept ERROR_SLEEP]

/-- Fate of one iteration of the while loop (worker.py lines 328-433):
the market-time gate fired (sleep 60), a cycle ran to completion with the
given time and slot list, or the cycle raised. -/
inductive CycleOutcome
  | closed
  | ok (now : ℕ) (ups : List (String × PyVal))
  | exc (msg : String)

/-- The live loop over a finite schedule of iteration fates (worker.py
lines 328-433).  In-cycle Telegram traffic is modelled by the Event lists
of processUpdates; OrchAction covers the orchestration layer. -/
def liveLoop (qty : String → ℕ) (env : String → OrderEnv)
    (g : WorkerGlobals) : List CycleOutcome → WorkerGlobals × List OrchAction
  | [] => (g, [])
  | .closed :: rest =>
    let rr := liveLoop qty env g rest
    (rr.1, .slept 60 :: rr.2)
  | .ok now ups :: rest =>
    let g1 := (processUpdates now qty env g ups).1
    let rr := liveLoop qty env g1 rest
    (rr.1, .slept SLEEP_INTERVAL :: rr.2)
  | .exc m :: rest =>
    let rr := liveLoop qty env g rest
    (rr.1, onCycleException m ++ rr.2)

/-- Fate of run_worker (worker.py lines 438-446): asyncio.gather over the
live loop and the cold-start thread propagates the first exception, so a
raise escaping run_cold_start_from_api crashes the worker. -/
inductive WorkerOutcome
  | running
  | crashed (msg : String)
deriving DecidableEq

def run_worker_outcome (coldStart : Except String Unit) : WorkerOutcome :=
  match coldStart with
  | .ok _ => .running
  | .error m => .crashed m

/-! Helper lemmas about the loop body. -/

lemma buyBranch_of_alerted (now qty : ℕ) (env : OrderEnv) (s : SymState) (ltp : ℚ)
    (h : s.alerted = true) : buyBranch now qty env s ltp = (s, []) := by
  cases hdh : s.dayHigh with
  | none => simp [buyBranch, hdh]
  | some dh => simp [buyBranch, hdh, h]

lemma buyBranch_cases (now qty : ℕ) (env : OrderEnv) (s : SymState) (ltp : ℚ) :
    buyBranch now qty env s ltp = (s, []) ∨
    ∃ dh, s.dayHigh = some dh ∧ LIVE_BUY_START ≤ now ∧ now ≤ LIVE_BUY_END ∧
      s.alerted = false ∧ ltp ≤ dh * (103 / 100) ∧
      buyBranch now qty env s ltp =
        ({ s with trade := some ⟨targetOf dh, slOf dh⟩, alerted := true },
         Event.entryMsg (entryOf dh) (targetOf dh) (slOf dh) qty :: gttBlock env qty) := by
  rcases Option.eq_none_or_eq_some s.dayHigh with hdh | ⟨dh, hdh⟩
  · left; simp [buyBranch, hdh]
  · by_cases hc : LIVE_BUY_START ≤ now ∧ now ≤ LIVE_BUY_END ∧ s.alerted = false ∧
        ltp ≤ dh * (103 / 100)
    · right
      refine ⟨dh, hdh, hc.1, hc.2.1, hc.2.2.1, hc.2.2.2, ?_⟩
      simp only [buyBranch, hdh]
      rw [if_pos hc]
    · left
      simp only [buyBranch, hdh]
      rw [if_neg hc]

lemma exitBranch_cases (s : SymState) (ltp : ℚ) :
    (s.trade = none ∧ exitBranch s ltp = (s, [])) ∨
    ∃ tr, s.trade = some tr ∧
      ((tr.target ≤ ltp ∧
          exitBranch s ltp = ({ s with trade := none }, [.targetHitMsg ltp])) ∨
       (¬ tr.target ≤ ltp ∧ ltp ≤ tr.sl ∧
          exitBranch s ltp = ({ s with trade := none }, [.slHitMsg ltp])) ∨
       (¬ tr.target ≤ ltp ∧ ¬ ltp ≤ tr.sl ∧ exitBranch s ltp = (s, []))) := by
  rcases Option.eq_none_or_eq_some s.trade with htr | ⟨tr, htr⟩
  · left; exact ⟨htr, by simp [exitBranch, htr]⟩
  · right
    refine ⟨tr, htr, ?_⟩
    by_cases h1 : tr.target ≤ ltp
    · left
      exact ⟨h1, by simp only [exitBranch, htr]; rw [if_pos h1]⟩
    · by_cases h2 : ltp ≤ tr.sl
      · right; left
        exact ⟨h1, h2, by simp only [exitBranch, htr]; rw [if_neg h1, if_pos h2]⟩
      · right; right
        exact ⟨h1, h2, by simp only [exitBranch, htr]; rw [if_neg h1, if_neg h2]⟩

lemma exitBranch_alerted (s : SymState) (ltp : ℚ) :
    ((exitBranch s ltp).1).alerted = s.alerted := by
  rcases exitBranch_cases s ltp with ⟨_, he⟩ | ⟨tr, _, ⟨_, he⟩ | ⟨_, _, he⟩ | ⟨_, _, he⟩⟩ <;>
    rw [he]

lemma bodyStep_early (now qty : ℕ) (env : OrderEnv) (s : SymState)
    (c0 c1 c2 c3 ltp : ℚ) (h : now < TEN_AM) :
    bodyStep now qty env s c0 c1 c2 c3 ltp =
      ({ s with dayHigh := some (max ((s.dayHigh).getD 0) (max (max c0 c1) (max c2 c3))) },
       []) := by
  simp only [bodyStep]
  rw [if_pos h]

lemma bodyStep_late (now qty : ℕ) (env : OrderEnv) (s : SymState)
    (c0 c1 c2 c3 ltp : ℚ) (h : ¬ now < TEN_AM) :
    bodyStep now qty env s c0 c1 c2 c3 ltp =
      ((exitBranch (buyBranch now qty env s ltp).1 ltp).1,
       (buyBranch now qty env s ltp).2 ++
         (exitBranch (buyBranch now qty env s ltp).1 ltp).2) := by
  simp only [bodyStep]
  rw [if_neg h]

lemma bodyStep_alerted_mono (now qty : ℕ) (env : OrderEnv) (s : SymState)
    (c0 c1 c2 c3 ltp : ℚ) (h : s.alerted = true) :
    ((bodyStep now qty env s c0 c1 c2 c3 ltp).1).alerted = true := by
  by_cases hn : now < TEN_AM
  · rw [bodyStep_early now qty env s c0 c1 c2 c3 ltp hn]
    exact h
  · rw [bodyStep_late now qty env s c0 c1 c2 c3 ltp hn]
    rw [buyBranch_of_alerted now qty env s ltp h]
    rw [exitBranch_alerted]
    exact h

lemma symStep_alerted_mono (now qty : ℕ) (env : OrderEnv) (s : SymState) (v : PyVal)
    (h : s.alerted = true) : ((symStep now qty env s v).1).alerted = true := by
  unfold symStep
  split
  · exact h
  · split
    · exact bodyStep_alerted_mono _ _ _ _ _ _ _ _ _ h
    · exact h

lemma countP_entry_gttBlock (env : OrderEnv) (qty : ℕ) :
    List.countP isEntryMsg (gttBlock env qty) = 0 := by
  cases hi : env.isin with
  | none => simp [gttBlock, hi, isEntryMsg]
  | some i =>
    cases hp : env.placement <;>
      simp [gttBlock, hi, hp, trigger_gtt_trade, isEntryMsg]

lemma countP_gtt_gttBlock (env : OrderEnv) (qty : ℕ) :
    List.countP isGttInvoke (gttBlock env qty) ≤ 1 := by
  cases hi : env.isin with
  | none => simp [gttBlock, hi, isGttInvoke]
  | some i =>
    cases hp : env.placement <;>
      simp [gttBlock, hi, hp, trigger_gtt_trade, isGttInvoke]

lemma countP_entry_exit (s : SymState) (ltp : ℚ) :
    List.countP isEntryMsg (exitBranch s ltp).2 = 0 := by
  rcases exitBranch_cases s ltp with ⟨_, he⟩ | ⟨tr, _, ⟨_, he⟩ | ⟨_, _, he⟩ | ⟨_, _, he⟩⟩ <;>
    simp [he, isEntryMsg]

lemma countP_gtt_exit (s : SymState) (ltp : ℚ) :
    List.countP isGttInvoke (exitBranch s ltp).2 = 0 := by
  rcases exitBranch_cases s ltp with ⟨_, he⟩ | ⟨tr, _, ⟨_, he⟩ | ⟨_, _, he⟩ | ⟨_, _, he⟩⟩ <;>
    simp [he, isGttInvoke]

lemma phase_cases (s : SymState) :
    (phase s = .ENTERED ∧ ∃ tr, s.trade = some tr) ∨
    (phase s = .EXITED ∧ s.trade = none ∧ s.alerted = true) ∨
    (phase s = .PENDING ∧ s.trade = none ∧ s.alerted = false) := by
  rcases Option.eq_none_or_eq_some s.trade with htr | ⟨tr, htr⟩
  · cases hal : s.alerted
    · right; right; exact ⟨by simp [phase, htr, hal], htr, rfl⟩
    · right; left; exact ⟨by simp [phase, htr, hal], htr, rfl⟩
  · left; exact ⟨by simp [phase, htr], tr, htr⟩

lemma phase_entered (s : SymState) (tr : LiveTrade) (h : s.trade = some tr) :
    phase s = .ENTERED := by simp [phase, h]

lemma phase_exited (s : SymState) (h1 : s.trade = none) (h2 : s.alerted = true) :
    phase s = .EXITED := by simp [phase, h1, h2]

lemma phase_pending (s : SymState) (h1 : s.trade = none) (h2 : s.alerted = false) :
    phase s = .PENDING := by simp [phase, h1, h2]

lemma candleGuard_pair (sym : String) (latest : Option (List ℚ)) :
    candleGuard (.pyPair sym latest) = true := rfl

lemma symStep_guard (now qty : ℕ) (env : OrderEnv) (s : SymState) (v : PyVal)
    (h : candleGuard v = true) : symStep now qty env s v = (s, []) := by
  unfold symStep
  rw [if_pos h]

lemma symStep_fetchLatest (now qty : ℕ) (env : OrderEnv) (s : SymState)
    (sym : String) (o : FetchOutcome) :
    symStep now qty env s (fetchLatestVal sym o) = (s, []) :=
  symStep_guard _ _ _ _ _ rfl

lemma processUpdates_fetch (now : ℕ) (qtys : String → ℕ) (envs : String → OrderEnv)
    (g : WorkerGlobals) (symbols : List String) (outcomes : String → FetchOutcome) :
    processUpdates now qtys envs g (liveCycleUpdates symbols outcomes) = (g, []) := by
  induction symbols generalizing g with
  | nil => rfl
  | cons a as ih =>
    simp only [liveCycleUpdates, List.map_cons] at ih ⊢
    simp only [processUpdates]
    rw [symStep_fetchLatest]
    rw [Function.update_eq_self]
    have ih1 := ih g
    simp [ih1]

lemma buyBranch_fire (now qty : ℕ) (env : OrderEnv) (s : SymState) (ltp dh : ℚ)
    (hdh : s.dayHigh = some dh) (h1 : LIVE_BUY_START ≤ now) (h2 : now ≤ LIVE_BUY_END)
    (h3 : s.alerted = false) (h4 : ltp ≤ dh * (103 / 100)) :
    buyBranch now qty env s ltp =
      ({ s with trade := some ⟨targetOf dh, slOf dh⟩, alerted := true },
       Event.entryMsg (entryOf dh) (targetOf dh) (slOf dh) qty :: gttBlock env qty) := by
  simp only [buyBranch, hdh]
  rw [if_pos ⟨h1, h2, h3, h4⟩]

/-! Claim theorems. -/

/-- C3: in every polling cycle the per-symbol gather slot is the 2-tuple
(symbol, candle-or-None) that fetch_latest_candle returns, never a bare
candle list; the tuple fails the worker's candle guard, so the loop takes
the continue branch for every symbol, and the day-high accumulation, BUY
trigger, GTT placement and target/stoploss checks are unreachable: a full
cycle over the fetched slots leaves the worker state unchanged and emits
nothing.  (An exception object in a slot is likewise skipped.) -/
theorem C3_tuple_fails_guard :
    ∀ (now qty : ℕ) (env : OrderEnv) (s : SymState) (sym : String) (o : FetchOutcome),
      fetchLatestVal sym o = PyVal.pyPair sym (fetchCandles o).getLast? ∧
      candleGuard (fetchLatestVal sym o) = true ∧
      (∀ m, candleGuard (PyVal.pyExc m) = true) ∧
      symStep now qty env s (fetchLatestVal sym o) = (s, []) ∧
      (∀ (g : WorkerGlobals) (symbols : List String) (outcomes : String → FetchOutcome)
          (qtys : String → ℕ) (envs : String → OrderEnv),
        processUpdates now qtys envs g (liveCycleUpdates symbols outcomes) = (g, [])) := by
  intro now qty env s sym o
  refine ⟨rfl, rfl, fun m => rfl, symStep_fetchLatest now qty env s sym o, ?_⟩
  intro g symbols outcomes qtys envs
  exact processUpdates_fetch now qtys envs g symbols outcomes

/-- C2: for a symbol in the ENTERED phase, a price update reaching the
target/stoploss check that satisfies both the target condition
(ltp ≥ target) and the stoploss condition (ltp ≤ sl) exits with TARGET
(the target branch is evaluated first), and a STOPLOSS exit can only be
recorded when the target condition is false. -/
theorem C2_target_before_stoploss :
    ∀ (now qty : ℕ) (env : OrderEnv) (s : SymState) (tr : LiveTrade)
      (c0 c1 c2 c3 ltp : ℚ),
      s.alerted = true → s.trade = some tr → TEN_AM ≤ now →
      ((tr.target ≤ ltp → ltp ≤ tr.sl →
          phase (bodyStep now qty env s c0 c1 c2 c3 ltp).1 = Phase.EXITED ∧
          (bodyStep now qty env s c0 c1 c2 c3 ltp).2 = [Event.targetHitMsg ltp]) ∧
       (∀ p, Event.slHitMsg p ∈ (bodyStep now qty env s c0 c1 c2 c3 ltp).2 →
          ¬ tr.target ≤ ltp)) := by
  intro now qty env s tr c0 c1 c2 c3 ltp hal htr hnow
  have hlt : ¬ now < TEN_AM := not_lt.mpr hnow
  rw [bodyStep_late now qty env s c0 c1 c2 c3 ltp hlt,
      buyBranch_of_alerted now qty env s ltp hal]
  dsimp only
  constructor
  · intro h1 _h2
    have he : exitBranch s ltp = ({ s with trade := none }, [Event.targetHitMsg ltp]) := by
      simp only [exitBranch, htr]; rw [if_pos h1]
    rw [he]
    exact ⟨phase_exited _ rfl hal, rfl⟩
  · intro p hp
    rcases exitBranch_cases s ltp with ⟨hn, _⟩ | ⟨tr2, htr2, hc⟩
    · rw [hn] at htr; exact absurd htr (by simp)
    · have htreq : tr2 = tr := by rw [htr] at htr2; exact (Option.some.injEq _ _).mp htr2.symm
      subst htreq
      rcases hc with ⟨h1, he⟩ | ⟨h1, _h2, he⟩ | ⟨h1, _h2, he⟩ <;> rw [he] at hp
      · simp at hp
      · exact fun hcon => h1 hcon
      · simp at hp

/-- Witness for C2 at a concrete ENTERED state where one price satisfies
both conditions. -/
theorem C2_target_before_stoploss_witness :
    phase (bodyStep 630 1 ⟨none, PlacementOutcome.failed "e"⟩
      ⟨none, true, some ⟨100, 100⟩⟩ 100 100 100 100 100).1 = Phase.EXITED ∧
    (bodyStep 630 1 ⟨none, PlacementOutcome.failed "e"⟩
      ⟨none, true, some ⟨100, 100⟩⟩ 100 100 100 100 100).2 = [Event.targetHitMsg 100] :=
  (C2_target_before_stoploss 630 1 ⟨none, PlacementOutcome.failed "e"⟩
      ⟨none, true, some ⟨100, 100⟩⟩ ⟨100, 100⟩ 100 100 100 100 100 rfl rfl
      (by norm_num [TEN_AM])).1 (le_refl _) (le_refl _)

/-- C8 counterexample: at 10:00:00 IST on a Saturday (weekday 5) the
engine's gate is_market_time returns true, while the claimed
weekday-and-hours predicate is false, so the gate is not that predicate. -/
theorem C8_counterexample :
    is_market_time 36000 = true ∧ specSessionOpen 5 36000 = false := by decide

/-- C8 amended: the gate the worker uses, is_market_time, checks only
that the IST wall-clock time lies within 09:15-15:30 and ignores the
weekday; the weekday-and-hours session check exists only as
stock_profits.is_market_open, which the worker does not call. -/
theorem C8_amended :
    ∀ (weekday t : ℕ),
      (is_market_time t = true ↔ MARKET_OPEN ≤ t ∧ t ≤ MARKET_CLOSE) ∧
      is_market_open weekday t = specSessionOpen weekday t := by
  intro wd t
  constructor
  · simp [is_market_time]
  · by_cases h : 5 ≤ wd
    · have h2 : ¬ wd < 5 := not_lt.mpr h
      simp [is_market_open, specSessionOpen, h, h2]
    · have h2 : wd < 5 := not_le.mp h
      simp [is_market_open, specSessionOpen, h, h2]

/-- C9 counterexample: for a concrete uncaught cycle exception the except
branch of the live loop emits a log line and the 15 s back-off sleep but
no notification, contrary to the claim that a notification is sent. -/
theorem C9_counterexample :
    List.countP isNotifyAction (onCycleException "boom") = 0 ∧
    List.countP isLogAction (onCycleException "boom") = 1 ∧
    OrchAction.slept ERROR_SLEEP ∈ onCycleException "boom" := by decide

/-- C9 amended: an uncaught exception in a polling cycle is caught at the
cycle boundary, logged, followed by the ERROR_SLEEP (15 s) back-off, and
the loop resumes with the worker state untouched — but no notification is
sent; moreover an exception escaping the cold-start task propagates
through asyncio.gather in run_worker and crashes the worker, so not every
error category is non-fatal. -/
theorem C9_amended :
    ∀ (qtys : String → ℕ) (envs : String → OrderEnv) (g : WorkerGlobals)
      (m : String) (rest : List CycleOutcome),
      (liveLoop qtys envs g (CycleOutcome.exc m :: rest)).1 =
        (liveLoop qtys envs g rest).1 ∧
      (liveLoop qtys envs g (CycleOutcome.exc m :: rest)).2 =
        onCycleException m ++ (liveLoop qtys envs g rest).2 ∧
      (∀ a, a ∈ onCycleException m → isNotifyAction a = false) ∧
      OrchAction.slept ERROR_SLEEP ∈ onCycleException m ∧
      run_worker_outcome (Except.error m) = WorkerOutcome.crashed m := by
  intro qtys envs g m rest
  refine ⟨rfl, rfl, ?_, ?_, rfl⟩
  · intro a ha
    simp only [onCycleException, List.mem_cons, List.mem_singleton] at ha
    rcases ha with h | h | h
    · subst h; rfl
    · subst h; rfl
    · exact absurd h (by simp)
  · simp [onCycleException]

/-- Witness for C9 at a concrete exception message and schedule. -/
theorem C9_amended_witness :
    isNotifyAction (OrchAction.slept ERROR_SLEEP) = false ∧
    OrchAction.slept ERROR_SLEEP ∈ onCycleException "boom2" := by
  have h := C9_amended (fun _ => 1) (fun _ => ⟨none, PlacementOutcome.failed "e"⟩)
      ⟨none, fun _ => initSymState⟩ "boom2" []
  exact ⟨h.2.2.1 _ h.2.2.2.1, h.2.2.2.1⟩

/-- C6 counterexample: at a concrete input the cold-start routine emits a
non-empty message list (the summary pie is always sent) and leaves the
per-symbol state untouched, so no symbol ends up ENTERED — contrary to
the claimed silent replay to phase ENTERED. -/
theorem C6_counterexample :
    (run_cold_start_from_api true ⟨0, 0, 0, 0, false⟩
        ⟨none, fun _ => initSymState⟩).2.2 ≠ [] ∧
    phase ((run_cold_start_from_api true ⟨0, 0, 0, 0, false⟩
        ⟨none, fun _ => initSymState⟩).1.syms "X") = Phase.PENDING := by
  constructor
  · simp [run_cold_start_from_api, send_table_images]
  · rfl

/-- C6 amended: run_cold_start_from_api performs no candle replay and
builds no per-symbol TradeState: for every input it returns the worker
state unchanged, sets cold_start_done, and always emits at least the
summary-pie message (so a cold start is never silent). -/
theorem C6_amended :
    ∀ (marketTime : Bool) (d : AnalyzedData) (g : WorkerGlobals),
      (run_cold_start_from_api marketTime d g).1 = g ∧
      (run_cold_start_from_api marketTime d g).2.1 = true ∧
      ColdMsg.summaryPie d.profitCount d.stoplossCount d.enteredCount d.notEnteredCount ∈
        (run_cold_start_from_api marketTime d g).2.2 := by
  intro mt d g
  refine ⟨rfl, rfl, ?_⟩
  simp [run_cold_start_from_api]

/-- C7: the batched fetch returns exactly one slot per requested symbol,
in request order, each slot being (symbol, candle-or-None); when every
underlying fetch raises, it still returns one (symbol, None) slot per
symbol; and slot i depends only on symbol i's own fetch outcome, so one
symbol's failure cannot affect or block a sibling's slot. -/
theorem C7_fetch_all :
    ∀ (symbols : List String) (outcomes outcomes2 : String → FetchOutcome) (msg : String),
      (fetchAll symbols outcomes).length = symbols.length ∧
      (fetchAll symbols outcomes).map Prod.fst = symbols ∧
      fetchAll symbols (fun _ => FetchOutcome.exn msg) =
        symbols.map (fun s => (s, none)) ∧
      (∀ i : ℕ, outcomes (symbols.getD i "") = outcomes2 (symbols.getD i "") →
        (fetchAll symbols outcomes).getD i ("", none) =
          (fetchAll symbols outcomes2).getD i ("", none)) := by
  intro symbols outcomes outcomes2 msg
  refine ⟨by simp [fetchAll],
    by simp [fetchAll, fetch_latest_candle, Function.comp_def], ?_, ?_⟩
  · simp [fetchAll, fetch_latest_candle, fetchCandles]
  · intro i
    induction symbols generalizing i with
    | nil => intro _; rfl
    | cons a as ih =>
      cases i with
      | zero =>
        intro h
        simp only [List.getD, List.get?] at h ⊢
        simp [fetchAll, fetch_latest_candle] at h ⊢
        rw [h]
      | succ n =>
        intro h
        simp only [fetchAll, List.map_cons, List.getD_cons_succ] at h ⊢
        exact ih n h

/-- Witness for C7: two symbols, every fetch failing, and fault isolation
between a failing first symbol and a succeeding sibling. -/
theorem C7_fetch_all_witness :
    (fetchAll ["A", "B"] (fun _ => FetchOutcome.exn "down")).length = 2 ∧
    (fetchAll ["A", "B"] (fun _ => FetchOutcome.exn "down")).getD 0 ("", none) =
      (fetchAll ["A", "B"]
        (fun s => if s = "A" then FetchOutcome.exn "down" else FetchOutcome.ok [])).getD 0
        ("", none) := by
  have h := C7_fetch_all ["A", "B"] (fun _ => FetchOutcome.exn "down")
      (fun s => if s = "A" then FetchOutcome.exn "down" else FetchOutcome.ok []) "down"
  exact ⟨h.1, h.2.2.2 0 (by decide)⟩

/-- C1 counterexample: the spec's scenario — a fresh symbol and the price
sequence [95, 98, 100, 103, 107] delivered inside the buy window (10:30)
— produces no events at all and leaves the phase PENDING, not the claimed
ENTRY at 100 followed by TARGET_HIT at 107 with final phase EXITED: the
BUY trigger compares ltp against a pre-10:00 day high times 1.03 and
never reads the signal's entry/target/stoploss levels. -/
theorem C1_counterexample :
    (runPrices 630 1 ⟨some "INE000A01010", PlacementOutcome.success "G1"⟩ initSymState
      [95, 98, 100, 103, 107]).2 = [] ∧
    phase (runPrices 630 1 ⟨some "INE000A01010", PlacementOutcome.success "G1"⟩ initSymState
      [95, 98, 100, 103, 107]).1 = Phase.PENDING := by
  constructor <;> rfl

/-- C1 amended: for a PENDING symbol, the loop body emits exactly one
ENTRY (BUY TRIGGERED) event precisely when the time of day is in
[10:00, 11:40] (the LIVE_BUY window cut by the 10:00 day-high gate), a
pre-10:00 day high dh is recorded, and the latest price is ≤ dh · 1.03 —
the signal's entry_price is never consulted — and the entry marks the
symbol alerted; the spec's scenario therefore produces no events and
stays PENDING. -/
theorem C1_amended :
    (∀ (now qty : ℕ) (env : OrderEnv) (s : SymState) (c0 c1 c2 c3 ltp : ℚ),
        s.alerted = false → s.trade = none →
        ((List.countP isEntryMsg (bodyStep now qty env s c0 c1 c2 c3 ltp).2 = 1 ↔
            (TEN_AM ≤ now ∧ now ≤ LIVE_BUY_END ∧
             ∃ dh, s.dayHigh = some dh ∧ ltp ≤ dh * (103 / 100))) ∧
         (List.countP isEntryMsg (bodyStep now qty env s c0 c1 c2 c3 ltp).2 = 1 →
            ((bodyStep now qty env s c0 c1 c2 c3 ltp).1).alerted = true))) ∧
    runPrices 630 1 ⟨some "INE000A01010", PlacementOutcome.success "G1"⟩ initSymState
      [95, 98, 100, 103, 107] = (initSymState, []) := by
  constructor
  · intro now qty env s c0 c1 c2 c3 ltp hal htr
    by_cases hn : now < TEN_AM
    · rw [bodyStep_early now qty env s c0 c1 c2 c3 ltp hn]
      refine ⟨⟨fun hcount => absurd hcount (by simp), ?_⟩, fun hcount => absurd hcount (by simp)⟩
      rintro ⟨h600, -, -⟩
      exact absurd h600 (not_le.mpr hn)
    · have h600 : TEN_AM ≤ now := not_lt.mp hn
      have h565 : LIVE_BUY_START ≤ now := le_trans (by norm_num [LIVE_BUY_START, TEN_AM]) h600
      rw [bodyStep_late now qty env s c0 c1 c2 c3 ltp hn]
      rcases Option.eq_none_or_eq_some s.dayHigh with hdh | ⟨dh, hdh⟩
      · have hb : buyBranch now qty env s ltp = (s, []) := by simp [buyBranch, hdh]
        rw [hb]
        dsimp only
        rw [List.nil_append]
        refine ⟨⟨fun hcount => ?_, ?_⟩, fun hcount => ?_⟩
        · rw [countP_entry_exit] at hcount; exact absurd hcount (by decide)
        · rintro ⟨-, -, dh2, hdh2, -⟩
          rw [hdh] at hdh2; exact absurd hdh2 (by simp)
        · rw [countP_entry_exit] at hcount; exact absurd hcount (by decide)
      · by_cases h700 : now ≤ LIVE_BUY_END
        · by_cases hle : ltp ≤ dh * (103 / 100)
          · rw [buyBranch_fire now qty env s ltp dh hdh h565 h700 hal hle]
            dsimp only
            refine ⟨⟨fun _ => ⟨h600, h700, dh, hdh, hle⟩, fun _ => ?_⟩, fun _ => ?_⟩
            · simp [List.countP_cons, List.countP_append, isEntryMsg,
                countP_entry_gttBlock, countP_entry_exit]
            · rw [exitBranch_alerted]
          · have hb : buyBranch now qty env s ltp = (s, []) := by
              simp only [buyBranch, hdh]
              rw [if_neg (fun hc => hle hc.2.2.2)]
            rw [hb]
            dsimp only
            rw [List.nil_append]
            refine ⟨⟨fun hcount => ?_, ?_⟩, fun hcount => ?_⟩
            · rw [countP_entry_exit] at hcount; exact absurd hcount (by decide)
            · rintro ⟨-, -, dh2, hdh2, hle2⟩
              rw [hdh] at hdh2
              cases hdh2
              exact absurd hle2 hle
            · rw [countP_entry_exit] at hcount; exact absurd hcount (by decide)
        · have hb : buyBranch now qty env s ltp = (s, []) := by
            simp only [buyBranch, hdh]
            rw [if_neg (fun hc => h700 hc.2.1)]
          rw [hb]
          dsimp only
          rw [List.nil_append]
          refine ⟨⟨fun hcount => ?_, ?_⟩, fun hcount => ?_⟩
          · rw [countP_entry_exit] at hcount; exact absurd hcount (by decide)
          · rintro ⟨-, h700x, -⟩
            exact absurd h700x h700
          · rw [countP_entry_exit] at hcount; exact absurd hcount (by decide)
  · rfl

/-- Witness for C1 at a concrete PENDING state whose recorded day high
and price satisfy the amended entry condition. -/
theorem C1_amended_witness :
    List.countP isEntryMsg
      (bodyStep 630 1 ⟨some "INE000A01010", PlacementOutcome.success "G1"⟩
        ⟨some 100, false, none⟩ 101 101 101 101 101).2 = 1 :=
  (C1_amended.1 630 1 ⟨some "INE000A01010", PlacementOutcome.success "G1"⟩
      ⟨some 100, false, none⟩ 101 101 101 101 101 rfl rfl).1.mpr
    ⟨by norm_num [TEN_AM], by norm_num [LIVE_BUY_END], 100, rfl, by norm_num⟩

/-- C4 counterexample: with a recorded day high of 100, the single price
update 101 at 10:30 takes a PENDING symbol to EXITED within one loop
iteration (the BUY trigger fires with sl = 101.97 and the same update's
stoploss check immediately exits), so one update can advance the phase by
two steps. -/
theorem C4_counterexample :
    phase (⟨some 100, false, none⟩ : SymState) = Phase.PENDING ∧
    phase (bodyStep 630 1 ⟨some "INE000A01010", PlacementOutcome.success "G1"⟩
      ⟨some 100, false, none⟩ 101 101 101 101 101).1 = Phase.EXITED := by
  constructor
  · rfl
  · rw [bodyStep_late 630 1 ⟨some "INE000A01010", PlacementOutcome.success "G1"⟩
        ⟨some 100, false, none⟩ 101 101 101 101 101 (by norm_num [TEN_AM])]
    rw [buyBranch_fire 630 1 ⟨some "INE000A01010", PlacementOutcome.success "G1"⟩
        ⟨some 100, false, none⟩ 101 100 rfl (by norm_num [LIVE_BUY_START])
        (by norm_num [LIVE_BUY_END]) rfl (by norm_num)]
    dsimp only
    have hT : ¬ (targetOf 100 ≤ (101 : ℚ)) := by norm_num [targetOf, entryOf, round2]
    have hS : (101 : ℚ) ≤ slOf 100 := by norm_num [slOf, entryOf, round2]
    have hx : exitBranch ⟨some 100, true, some ⟨targetOf 100, slOf 100⟩⟩ 101 =
        (⟨some 100, true, none⟩, [Event.slHitMsg 101]) := by
      simp only [exitBranch]
      rw [if_neg hT, if_pos hS]
    rw [hx]
    rfl

/-- C4 amended: under the reachability invariant that a live trade is
only held by an alerted symbol, the phase never moves backward across one
update, the invariant is preserved, and EXITED is terminal for updates at
or after 10:00 (the only times at which an exit can have happened); but a
single update may pass from PENDING through ENTERED to EXITED, emitting
the ENTRY event on the way — the phase after one update can be two steps
ahead of the phase before. -/
theorem C4_amended :
    ∀ (now qty : ℕ) (env : OrderEnv) (s : SymState) (c0 c1 c2 c3 ltp : ℚ),
      (s.trade.isSome = true → s.alerted = true) →
      (rank (phase s) ≤ rank (phase (bodyStep now qty env s c0 c1 c2 c3 ltp).1) ∧
       (((bodyStep now qty env s c0 c1 c2 c3 ltp).1).trade.isSome = true →
          ((bodyStep now qty env s c0 c1 c2 c3 ltp).1).alerted = true) ∧
       (phase s = Phase.PENDING →
          phase (bodyStep now qty env s c0 c1 c2 c3 ltp).1 = Phase.EXITED →
          List.countP isEntryMsg (bodyStep now qty env s c0 c1 c2 c3 ltp).2 = 1) ∧
       (phase s = Phase.EXITED → TEN_AM ≤ now →
          bodyStep now qty env s c0 c1 c2 c3 ltp = (s, []))) := by
  intro now qty env s c0 c1 c2 c3 ltp hwf
  by_cases hn : now < TEN_AM
  · have hph : phase (bodyStep now qty env s c0 c1 c2 c3 ltp).1 = phase s := by
      rw [bodyStep_early now qty env s c0 c1 c2 c3 ltp hn]
      rfl
    refine ⟨by rw [hph], ?_, ?_, ?_⟩
    · rw [bodyStep_early now qty env s c0 c1 c2 c3 ltp hn]
      exact hwf
    · intro hp he
      rw [hph, hp] at he
      exact absurd he (by decide)
    · intro _ h600
      exact absurd h600 (not_le.mpr hn)
  · rw [bodyStep_late now qty env s c0 c1 c2 c3 ltp hn]
    rcases buyBranch_cases now qty env s ltp with hb | ⟨dh, hdh, -, -, hal, -, hb⟩
    · rw [hb]
      dsimp only
      simp only [List.nil_append]
      rcases exitBranch_cases s ltp with ⟨hnone, he⟩ | ⟨tr, htr, hcase⟩
      · rw [he]
        refine ⟨le_refl _, hwf, ?_, fun _ _ => rfl⟩
        intro hp hx
        rw [hp] at hx
        exact absurd hx (by decide)
      · have hal : s.alerted = true := hwf (by rw [htr]; rfl)
        have hent : phase s = Phase.ENTERED := phase_entered s tr htr
        have hexphase : phase (⟨s.dayHigh, s.alerted, none⟩ : SymState) = Phase.EXITED :=
          phase_exited _ rfl hal
        refine ⟨?_, ?_, ?_, ?_⟩
        · rw [hent]
          rcases hcase with ⟨h1, he⟩ | ⟨h1, h2, he⟩ | ⟨h1, h2, he⟩ <;> rw [he] <;> dsimp only
          · rw [hexphase]; decide
          · rw [hexphase]; decide
          · rw [hent]
        · intro _
          rw [exitBranch_alerted]
          exact hal
        · intro hp
          rw [hent] at hp
          exact absurd hp (by decide)
        · intro hx _
          rw [hent] at hx
          exact absurd hx (by decide)
    · have htr : s.trade = none := by
        rcases Option.eq_none_or_eq_some s.trade with ht | ⟨tr, ht⟩
        · exact ht
        · have := hwf (by rw [ht]; rfl)
          rw [hal] at this
          exact absurd this (by decide)
      rw [hb]
      dsimp only
      refine ⟨?_, ?_, ?_, ?_⟩
      · rw [phase_pending s htr hal]
        exact Nat.zero_le _
      · intro _
        rw [exitBranch_alerted]
      · intro _ _
        simp [List.countP_cons, List.countP_append, isEntryMsg,
          countP_entry_gttBlock, countP_entry_exit]
      · intro hx _
        rw [phase_pending s htr hal] at hx
        exact absurd hx (by decide)

/-- Witness for C4 at concrete PENDING and EXITED states. -/
theorem C4_amended_witness :
    rank (phase initSymState) ≤
      rank (phase (bodyStep 630 1 ⟨none, PlacementOutcome.failed "e"⟩ initSymState
        101 101 101 101 101).1) ∧
    bodyStep 630 1 ⟨none, PlacementOutcome.failed "e"⟩ (⟨none, true, none⟩ : SymState)
      101 101 101 101 101 = (⟨none, true, none⟩, []) := by
  have h1 := C4_amended 630 1 ⟨none, PlacementOutcome.failed "e"⟩ initSymState
      101 101 101 101 101 (fun h => absurd h (by decide))
  have h2 := C4_amended 630 1 ⟨none, PlacementOutcome.failed "e"⟩ ⟨none, true, none⟩
      101 101 101 101 101 (fun h => absurd h (by decide))
  exact ⟨h1.1, h2.2.2.2 rfl (by norm_num [TEN_AM])⟩

lemma processUpdates_last_reset (now : ℕ) (qtys : String → ℕ) (envs : String → OrderEnv)
    (g : WorkerGlobals) (ups : List (String × PyVal)) :
    ((processUpdates now qtys envs g ups).1).last_reset_date = g.last_reset_date := by
  induction ups generalizing g with
  | nil => rfl
  | cons u rest ih =>
    obtain ⟨us, uv⟩ := u
    simp only [processUpdates]
    exact ih _

lemma processUpdates_alerted_mono (now : ℕ) (qtys : String → ℕ) (envs : String → OrderEnv)
    (g : WorkerGlobals) (ups : List (String × PyVal)) (sym : String)
    (h : (g.syms sym).alerted = true) :
    (((processUpdates now qtys envs g ups).1).syms sym).alerted = true := by
  induction ups generalizing g with
  | nil => exact h
  | cons u rest ih =>
    obtain ⟨us, uv⟩ := u
    simp only [processUpdates]
    apply ih
    dsimp only
    by_cases he : us = sym
    · subst he
      rw [Function.update_same]
      exact symStep_alerted_mono _ _ _ _ _ h
    · rw [Function.update_noteq (fun hh => he hh.symm)]
      exact h

/-- C5: the claimed once-per-day reset does not exist: across any finite
sequence of polling cycles — regardless of their times of day, hence
regardless of how many calendar days they span (the loop never reads the
date) — last_reset_date keeps its initial value (it is assigned None once
at module load and never touched again, RESET_TIME is likewise never
read), and an alerted symbol stays alerted forever: no clear of the
per-symbol trade state ever happens. -/
theorem C5_no_daily_reset :
    ∀ (qtys : String → ℕ) (envs : String → OrderEnv) (g : WorkerGlobals)
      (cycles : List (ℕ × List (String × PyVal))),
      (runCycles qtys envs g cycles).last_reset_date = g.last_reset_date ∧
      (∀ sym, (g.syms sym).alerted = true →
        ((runCycles qtys envs g cycles).syms sym).alerted = true) := by
  intro qtys envs g cycles
  induction cycles generalizing g with
  | nil => exact ⟨rfl, fun _ h => h⟩
  | cons c rest ih =>
    obtain ⟨now, ups⟩ := c
    simp only [runCycles]
    refine ⟨?_, ?_⟩
    · rw [(ih _).1, processUpdates_last_reset]
    · intro sym h
      exact (ih _).2 sym (processUpdates_alerted_mono now qtys envs g ups sym h)

/-- Witness for C5: a worker state with an alerted symbol, run through a
15:29 cycle and a next-morning 09:20 cycle (the reset boundary 09:15 has
been crossed in between): the marker is still None and the symbol is
still alerted. -/
theorem C5_no_daily_reset_witness :
    (runCycles (fun _ => 1) (fun _ => ⟨none, PlacementOutcome.failed "e"⟩)
      ⟨none, fun _ => ⟨none, true, none⟩⟩
      [(929, [("X", PyVal.pyNone)]), (560, [("X", PyVal.pyNone)])]).last_reset_date = none ∧
    ((runCycles (fun _ => 1) (fun _ => ⟨none, PlacementOutcome.failed "e"⟩)
      ⟨none, fun _ => ⟨none, true, none⟩⟩
      [(929, [("X", PyVal.pyNone)]), (560, [("X", PyVal.pyNone)])]).syms "X").alerted = true := by
  have h := C5_no_daily_reset (fun _ => 1) (fun _ => ⟨none, PlacementOutcome.failed "e"⟩)
      ⟨none, fun _ => ⟨none, true, none⟩⟩
      [(929, [("X", PyVal.pyNone)]), (560, [("X", PyVal.pyNone)])]
  exact ⟨h.1, h.2 "X" rfl⟩

/-- C10: the GTT order placement is decoupled from the monitoring state:
one loop-body update performs at most as many trigger_gtt_trade calls as
ENTRY events (so at most one per ENTRY, and none without an ENTRY — there
is no retry), the resulting per-symbol state is identical whatever the
placement outcome (a failed order does not roll back the recorded entry,
its target/stoploss levels or the alerted mark), and a failed placement
is reported through the GTT-failed notification. -/
theorem C10_gtt_decoupled :
    ∀ (now qty : ℕ) (isin : Option String) (p p2 : PlacementOutcome) (s : SymState)
      (c0 c1 c2 c3 ltp : ℚ),
      List.countP isGttInvoke (bodyStep now qty ⟨isin, p⟩ s c0 c1 c2 c3 ltp).2 ≤
        List.countP isEntryMsg (bodyStep now qty ⟨isin, p⟩ s c0 c1 c2 c3 ltp).2 ∧
      (bodyStep now qty ⟨isin, p⟩ s c0 c1 c2 c3 ltp).1 =
        (bodyStep now qty ⟨isin, p2⟩ s c0 c1 c2 c3 ltp).1 ∧
      (∀ i e, isin = some i → p = PlacementOutcome.failed e →
        List.countP isEntryMsg (bodyStep now qty ⟨isin, p⟩ s c0 c1 c2 c3 ltp).2 = 1 →
        Event.gttFailedMsg e ∈ (bodyStep now qty ⟨isin, p⟩ s c0 c1 c2 c3 ltp).2) := by
  intro now qty isin p p2 s c0 c1 c2 c3 ltp
  by_cases hn : now < TEN_AM
  · rw [bodyStep_early now qty ⟨isin, p⟩ s c0 c1 c2 c3 ltp hn,
        bodyStep_early now qty ⟨isin, p2⟩ s c0 c1 c2 c3 ltp hn]
    exact ⟨by simp, rfl, fun i e _ _ hc => absurd hc (by simp)⟩
  · rw [bodyStep_late now qty ⟨isin, p⟩ s c0 c1 c2 c3 ltp hn,
        bodyStep_late now qty ⟨isin, p2⟩ s c0 c1 c2 c3 ltp hn]
    rcases Option.eq_none_or_eq_some s.dayHigh with hdh | ⟨dh, hdh⟩
    · have hb : ∀ e2 : OrderEnv, buyBranch now qty e2 s ltp = (s, []) := fun e2 => by
        simp [buyBranch, hdh]
      rw [hb ⟨isin, p⟩, hb ⟨isin, p2⟩]
      dsimp only
      simp only [List.nil_append]
      exact ⟨by rw [countP_gtt_exit, countP_entry_exit],
        by trivial,
        fun i e _ _ hc => by rw [countP_entry_exit] at hc; exact absurd hc (by decide)⟩
    · by_cases hcond : LIVE_BUY_START ≤ now ∧ now ≤ LIVE_BUY_END ∧ s.alerted = false ∧
          ltp ≤ dh * (103 / 100)
      · rw [buyBranch_fire now qty ⟨isin, p⟩ s ltp dh hdh hcond.1 hcond.2.1
            hcond.2.2.1 hcond.2.2.2,
          buyBranch_fire now qty ⟨isin, p2⟩ s ltp dh hdh hcond.1 hcond.2.1
            hcond.2.2.1 hcond.2.2.2]
        dsimp only
        refine ⟨?_, rfl, ?_⟩
        · have hgb := countP_gtt_gttBlock ⟨isin, p⟩ qty
          simp only [List.countP_cons, List.countP_append, countP_gtt_exit,
            countP_entry_exit, countP_entry_gttBlock, isEntryMsg, isGttInvoke]
          simp only [Bool.false_eq_true, if_false, if_true]
          omega
        · intro i e hi hp _
          subst hi
          subst hp
          simp [gttBlock, trigger_gtt_trade]
      · have hb : ∀ e2 : OrderEnv, buyBranch now qty e2 s ltp = (s, []) := fun e2 => by
          simp only [buyBranch, hdh]
          rw [if_neg hcond]
        rw [hb ⟨isin, p⟩, hb ⟨isin, p2⟩]
        dsimp only
        simp only [List.nil_append]
        exact ⟨by rw [countP_gtt_exit, countP_entry_exit],
          by trivial,
          fun i e _ _ hc => by rw [countP_entry_exit] at hc; exact absurd hc (by decide)⟩

/-- Witness for C10 at a concrete firing entry whose GTT placement
fails. -/
theorem C10_gtt_decoupled_witness :
    (bodyStep 630 1 ⟨some "INE000A01010", PlacementOutcome.failed "rejected"⟩
        ⟨some 100, false, none⟩ 101 101 101 101 101).1 =
      (bodyStep 630 1 ⟨some "INE000A01010", PlacementOutcome.success "G1"⟩
        ⟨some 100, false, none⟩ 101 101 101 101 101).1 ∧
    Event.gttFailedMsg "rejected" ∈
      (bodyStep 630 1 ⟨some "INE000A01010", PlacementOutcome.failed "rejected"⟩
        ⟨some 100, false, none⟩ 101 101 101 101 101).2 := by
  have h := C10_gtt_decoupled 630 1 (some "INE000A01010")
      (PlacementOutcome.failed "rejected") (PlacementOutcome.success "G1")
      ⟨some 100, false, none⟩ 101 101 101 101 101
  refine ⟨h.2.1, h.2.2 "INE000A01010" "rejected" rfl rfl ?_⟩
  rw [bodyStep_late 630 1 ⟨some "INE000A01010", PlacementOutcome.failed "rejected"⟩
      ⟨some 100, false, none⟩ 101 101 101 101 101 (by norm_num [TEN_AM])]
  rw [buyBranch_fire 630 1 ⟨some "INE000A01010", PlacementOutcome.failed "rejected"⟩
      ⟨some 100, false, none⟩ 101 100 rfl (by norm_num [LIVE_BUY_START])
      (by norm_num [LIVE_BUY_END]) rfl (by norm_num)]
  dsimp only
  simp [List.countP_cons, List.countP_append, isEntryMsg,
    countP_entry_gttBlock, countP_entry_exit]

end StockProfits
